import Mathlib

/-!
Shallow embedding of the appleseed DRT (distribution ray tracing) lighting
engine (renderer/kernel/lighting/drt/drt.cpp), the AOV accumulator container
(renderer/kernel/aov/aovaccumulator.h) and the ambient-occlusion surface
shader (renderer/modeling/surfaceshader/aosurfaceshader.cpp).

Real numbers (C++ double / float) are modelled by the rationals.  Because the
engine divides by quantities that can be zero (squared travel distance, the
sum of squared sampling densities inside the power-2 MIS weight), scalar
computations that pass through those divisions are carried in the type
FiniteValue := Option Rat, where none marks a non-finite IEEE value (NaN or
infinity) produced by a division whose denominator is zero; every arithmetic
operation propagates none, mirroring NaN contamination.

External collaborators that the spec places out of scope (the direct-lighting
and image-based-lighting estimators, the light sampler, BSDF and EDF
evaluation, the ambient-occlusion primitive) are modelled as opaque function
parameters or function-valued structure fields: the engine only forwards
their results.
-/

set_option autoImplicit false

namespace Appleseed

/-- Three-dimensional vector over the rationals (foundation Vector3d). -/
structure Vec3 where
  x : ℚ
  y : ℚ
  z : ℚ
  deriving DecidableEq

/-- Dot product of two vectors (foundation dot). -/
def dot (a b : Vec3) : ℚ :=
  a.x * b.x + a.y * b.y + a.z * b.z

/-- Orthonormal shading frame (foundation Basis3d); the engine only passes it
through to external evaluators. -/
structure Basis3 where
  n : Vec3
  u : Vec3
  v : Vec3
  deriving DecidableEq

/-- foundation square: x * x. -/
def square (x : ℚ) : ℚ := x * x

/-- Number of wavelength bands of a Spectrum.  The band count is fixed at
compile time and opaque to this slice (the engine only adds and scales
spectra); three bands are used here. -/
def NBands : Nat := 3

/-- A fixed-length vector of per-band radiometric values. -/
abbrev Spectrum := Fin NBands → ℚ

/-- The zero spectrum (zero-initialized radiance). -/
def Spectrum.zero : Spectrum := fun _ => 0

/-- Componentwise sum of two spectra (operator += on Spectrum). -/
def Spectrum.add (a b : Spectrum) : Spectrum := fun i => a i + b i

/-- A spectrum scaled by a scalar (operator *= by a scalar). -/
def Spectrum.scale (s : ℚ) (a : Spectrum) : Spectrum := fun i => s * a i

/-- A scalar double value tracked for finiteness: none marks a non-finite
IEEE value (NaN or infinity). -/
abbrev FiniteValue := Option ℚ

/-- Addition on finiteness-tracked scalars; non-finite operands contaminate
the result. -/
def addF : FiniteValue → FiniteValue → FiniteValue
  | some a, some b => some (a + b)
  | _, _ => none

/-- Multiplication on finiteness-tracked scalars. -/
def mulF : FiniteValue → FiniteValue → FiniteValue
  | some a, some b => some (a * b)
  | _, _ => none

/-- Division on finiteness-tracked scalars: dividing by zero produces a
non-finite value (IEEE NaN or infinity), which is what the C++ double
division does with no guard. -/
def divF : FiniteValue → FiniteValue → FiniteValue
  | some a, some b => if b = 0 then none else some (a / b)
  | _, _ => none

/-- foundation square on finiteness-tracked scalars. -/
def squareF (x : FiniteValue) : FiniteValue := mulF x x

/-- Modelled from the spec: foundation/math/mis.h is not part of this slice.
The spec defines the power-2 (Veach) MIS weight for two sampling strategies
with densities q1 and q2 as q1^2 / (q1^2 + q2^2). -/
def mis_power2 (q1 q2 : ℚ) : ℚ :=
  square q1 / (square q1 + square q2)

/-- Modelled from the spec: the power-2 MIS weight computed in IEEE double
arithmetic, with the division tracked for finiteness (the denominator
square q1 + square q2 is zero when both densities are zero, in which case
the C++ division yields NaN). -/
def mis_power2F (q1 q2 : FiniteValue) : FiniteValue :=
  divF (squareF q1) (addF (squareF q1) (squareF q2))

/-- BSDF scattering modes (BSDF::Mode): the capability-typed modes the path
tracer distinguishes. -/
inductive BSDFMode where
  | Diffuse
  | Glossy
  | Specular
  deriving DecidableEq

/-- Emission distribution function: evaluate takes the geometric normal, the
shading basis and the outgoing direction and returns the emitted radiance
(the evaluation of the EDF input values through the texture cache is folded
into the function). -/
structure EDF where
  evaluate : Vec3 → Basis3 → Vec3 → Spectrum

/-- A material, of which this slice only reads the optional EDF. -/
structure Material where
  get_edf : Option EDF

/-- An immutable snapshot of a ray/surface intersection; field names follow
the ShadingPoint accessors used by the engine. -/
structure ShadingPoint where
  get_point : Vec3
  get_geometric_normal : Vec3
  get_shading_normal : Vec3
  get_shading_basis : Basis3
  get_distance : ℚ
  get_material : Material

/-- A candidate light sample produced by the light sampler. -/
structure LightSample where
  m_position : Vec3
  m_radiance : Spectrum
  m_probability : ℚ

/-- The external light sampler: sample takes the point, the shading normal
and a sample count and returns candidate light samples; evaluate_pdf returns
the probability density, with respect to surface area, of choosing a given
shading point through light sampling. -/
structure LightSampler where
  sample : Vec3 → Vec3 → Nat → List LightSample
  evaluate_pdf : ShadingPoint → ℚ

/-- A parameter dictionary, modelled as a partial map from option names to
size_t values (ParamArray restricted to the lookups this engine performs). -/
abbrev ParamArray := String → Option Nat

/-- ParamArray::get_optional: the stored value when the name is present, the
supplied default otherwise. -/
def get_optional (params : ParamArray) (name : String) (default_value : Nat) : Nat :=
  (params name).getD default_value

/-- DRTLightingEngine::Parameters. -/
structure Parameters where
  m_max_reflection_depth : Nat
  m_max_refraction_depth : Nat
  m_minimum_path_length : Nat
  m_dl_sample_count : Nat
  m_ibl_bsdf_sample_count : Nat
  m_ibl_env_sample_count : Nat
  deriving DecidableEq

/-- DRTLightingEngine::Parameters constructor: extract the recognized
options, falling back to the documented defaults. -/
def Parameters.ofParamArray (params : ParamArray) : Parameters where
  m_max_reflection_depth := get_optional params "max_reflection_depth" 8
  m_max_refraction_depth := get_optional params "max_refraction_depth" 8
  m_minimum_path_length := get_optional params "minimum_path_length" 3
  m_dl_sample_count := get_optional params "dl_samples" 1
  m_ibl_bsdf_sample_count := get_optional params "ibl_bsdf_samples" 2
  m_ibl_env_sample_count := get_optional params "ibl_env_samples" 2

/-- The per-vertex policy object.  The two estimator fields model the
external free functions compute_direct_lighting and
compute_image_based_lighting (out of scope per the spec), closed over the
BSDF, its input data and the shading context; the engine only forwards
their results. -/
structure PathVertexVisitor where
  m_light_sampler : LightSampler
  m_params : Parameters
  compute_direct_lighting : ShadingPoint → Vec3 → List LightSample → Spectrum
  compute_image_based_lighting : ShadingPoint → Vec3 → Nat → Nat → Spectrum

/-- The probability density, with respect to surface area, of the direction
obtained through sampling of the BSDF: px = bsdf_prob, px *= max(dot(
outgoing, shading_normal), 0), px /= square(distance).  The division is
unguarded in the source, so a zero distance produces a non-finite value. -/
def bsdf_point_prob (bsdf_prob : ℚ) (outgoing shading_normal : Vec3)
    (distance : ℚ) : FiniteValue :=
  divF (some (bsdf_prob * max (dot outgoing shading_normal) 0))
    (some (square distance))

/-- Steps 1 to 3 of get_vertex_radiance: generate light samples, compute
direct lighting, compute image-based lighting, and sum the two external
estimates. -/
def vertex_base_radiance (v : PathVertexVisitor) (sp : ShadingPoint)
    (outgoing : Vec3) : Spectrum :=
  let light_samples :=
    v.m_light_sampler.sample sp.get_point sp.get_shading_normal
      v.m_params.m_dl_sample_count
  let direct := v.compute_direct_lighting sp outgoing light_samples
  let ibl := v.compute_image_based_lighting sp outgoing
    v.m_params.m_ibl_bsdf_sample_count v.m_params.m_ibl_env_sample_count
  Spectrum.add direct ibl

/-- PathVertexVisitor::get_vertex_radiance: direct lighting plus IBL, plus,
when the material carries an EDF, the emitted radiance: unweighted for a
vertex reached by the Specular mode, multiplied by the power-2 MIS weight of
the BSDF area density against the light-sampling area density otherwise.
The result is none when the unguarded divisions produce a non-finite value
that contaminates the vertex radiance. -/
def get_vertex_radiance (v : PathVertexVisitor) (sp : ShadingPoint)
    (outgoing : Vec3) (bsdf_mode : BSDFMode) (bsdf_prob : ℚ) :
    Option Spectrum :=
  let base := vertex_base_radiance v sp outgoing
  match sp.get_material.get_edf with
  | none => some base
  | some edf =>
    let emitted := edf.evaluate sp.get_geometric_normal sp.get_shading_basis
      outgoing
    if bsdf_mode = BSDFMode.Specular then
      some (Spectrum.add base emitted)
    else
      let px := bsdf_point_prob bsdf_prob outgoing sp.get_shading_normal
        sp.get_distance
      let sample_probability := v.m_light_sampler.evaluate_pdf sp
      Option.map
        (fun w => Spectrum.add base (Spectrum.scale w emitted))
        (mis_power2F px (some sample_probability))

/-- PathVertexVisitor::get_environment_radiance: always reports the
environment radiance as not available and leaves the output untouched. -/
def get_environment_radiance (sp : ShadingPoint) (outgoing : Vec3)
    (environment_radiance : Spectrum) : Bool × Spectrum :=
  (false, environment_radiance)

/-- Modelled from the spec: foundation/math/population.h is not part of this
slice.  A running distribution of values: count, extrema and streaming
mean. -/
structure Population where
  m_size : Nat
  m_min : Nat
  m_max : Nat
  m_avg : ℚ

/-- A freshly constructed Population. -/
def Population.empty : Population :=
  { m_size := 0, m_min := 0, m_max := 0, m_avg := 0 }

/-- Modelled from the spec: insert one value into the running distribution,
updating count, extrema and the streaming mean. -/
def Population.insert (p : Population) (x : Nat) : Population :=
  if p.m_size = 0 then
    { m_size := 1, m_min := x, m_max := x, m_avg := (x : ℚ) }
  else
    { m_size := p.m_size + 1
      m_min := min p.m_min x
      m_max := max p.m_max x
      m_avg := p.m_avg + ((x : ℚ) - p.m_avg) / ((p.m_size : ℚ) + 1) }

/-- Population::get_avg. -/
def Population.get_avg (p : Population) : ℚ := p.m_avg

/-- Population::get_min. -/
def Population.get_min (p : Population) : Nat := p.m_min

/-- Population::get_max. -/
def Population.get_max (p : Population) : Nat := p.m_max

/-- DRTLightingEngine::Statistics: path count and ray-tree-depth
distribution. -/
structure Statistics where
  m_path_count : Nat
  m_ray_tree_depth : Population

/-- Statistics of a freshly constructed engine. -/
def Statistics.init : Statistics :=
  { m_path_count := 0, m_ray_tree_depth := Population.empty }

/-- The state the generic path tracer hands to the vertex visitor at one
traced vertex (PathVertexState in the spec data model). -/
structure PathVertex where
  shading_point : ShadingPoint
  outgoing : Vec3
  bsdf_mode : BSDFMode
  bsdf_prob : ℚ

/-- Sum of two optional spectra; a non-finite contribution contaminates the
accumulated radiance. -/
def addOpt : Option Spectrum → Option Spectrum → Option Spectrum
  | some a, some b => some (Spectrum.add a b)
  | _, _ => none

/-- Modelled from the spec: the generic PathTracer
(renderer/kernel/lighting/pathtracer.h) is not part of this slice.  It
starts from a zero-initialized radiance, invokes the vertex visitor at every
traced vertex and accumulates the per-vertex contributions; when the path
escapes the scene it asks the visitor for the environment radiance and adds
nothing when that query reports not available; it returns the accumulated
radiance and the path length. -/
def trace (v : PathVertexVisitor) (vertices : List PathVertex)
    (escape : Option (ShadingPoint × Vec3)) : Option Spectrum × Nat :=
  let radiance := vertices.foldl
    (fun acc pv =>
      addOpt acc
        (get_vertex_radiance v pv.shading_point pv.outgoing pv.bsdf_mode
          pv.bsdf_prob))
    (some Spectrum.zero)
  let radiance :=
    match escape with
    | none => radiance
    | some esc =>
      let env := get_environment_radiance esc.1 esc.2 Spectrum.zero
      if env.1 then addOpt radiance (some env.2) else radiance
  (radiance, vertices.length)

/-- The DRT lighting engine: the bound light sampler, the extracted
parameters and the running statistics. -/
structure DRTLightingEngine where
  m_light_sampler : LightSampler
  m_params : Parameters
  m_stats : Statistics

/-- DRTLightingEngine::compute_lighting: build a vertex visitor, trace the
path, then increment the path count and insert the traced path length into
the ray-tree-depth distribution.  The traced path (its vertices and its
optional escape point) is an input, produced by the external intersector;
DL and IBL stand for the external lighting estimators reached through the
shading context. -/
def compute_lighting (engine : DRTLightingEngine)
    (DL : ShadingPoint → Vec3 → List LightSample → Spectrum)
    (IBL : ShadingPoint → Vec3 → Nat → Nat → Spectrum)
    (vertices : List PathVertex) (escape : Option (ShadingPoint × Vec3)) :
    Option Spectrum × DRTLightingEngine :=
  let vertex_visitor : PathVertexVisitor :=
    { m_light_sampler := engine.m_light_sampler
      m_params := engine.m_params
      compute_direct_lighting := DL
      compute_image_based_lighting := IBL }
  let traced := trace vertex_visitor vertices escape
  (traced.1,
    { engine with
      m_stats :=
        { m_path_count := engine.m_stats.m_path_count + 1
          m_ray_tree_depth :=
            engine.m_stats.m_ray_tree_depth.insert traced.2 } })

/-- One traced path handed to compute_lighting: its vertices and its
optional escape point. -/
abbrev PathInput := List PathVertex × Option (ShadingPoint × Vec3)

/-- Run compute_lighting once per input path, threading the engine state. -/
def runPaths (engine : DRTLightingEngine)
    (DL : ShadingPoint → Vec3 → List LightSample → Spectrum)
    (IBL : ShadingPoint → Vec3 → Nat → Nat → Spectrum)
    (inputs : List PathInput) : DRTLightingEngine :=
  inputs.foldl (fun e inp => (compute_lighting e DL IBL inp.1 inp.2).2) engine

/-- AOV accumulator base state: slot index, running color, running alpha. -/
structure AOVAccumulator where
  m_index : Nat
  m_color : Spectrum
  m_alpha : ℚ

/-- Modelled from the spec: the compile-time constant MaxAOVCount lives in
renderer/kernel/aov/aovsettings.h, which is not part of this slice; the spec
only requires a fixed maximum channel count known at compile time. -/
def MaxAOVCount : Nat := 32

/-- The fixed-capacity ownership registry of AOV accumulators; the list
models the filled prefix of the m_accumulators array, so m_size is its
length. -/
structure AOVAccumulatorContainer where
  m_accumulators : List AOVAccumulator

/-- A freshly constructed, empty container. -/
def AOVAccumulatorContainer.empty : AOVAccumulatorContainer :=
  { m_accumulators := [] }

/-- Modelled from the spec: AOVAccumulatorContainer::insert is implemented
in renderer/kernel/aov/aovaccumulator.cpp, which is not part of this slice;
only its declaration is.  Per the spec, insert appends the accumulator while
the container holds fewer than MaxAOVCount accumulators and returns a
failure indicator, leaving the container unchanged, once capacity is
exhausted. -/
def AOVAccumulatorContainer.insert (c : AOVAccumulatorContainer)
    (a : AOVAccumulator) : Bool × AOVAccumulatorContainer :=
  if c.m_accumulators.length < MaxAOVCount then
    (true, { m_accumulators := c.m_accumulators ++ [a] })
  else
    (false, c)

/-- Insert a list of accumulators in order, collecting the success flag of
every call. -/
def insertAll (c : AOVAccumulatorContainer) :
    List AOVAccumulator → List Bool × AOVAccumulatorContainer
  | [] => ([], c)
  | a :: rest =>
    let step := c.insert a
    let next := insertAll step.2 rest
    (step.1 :: next.1, next.2)

/-- Color spaces of a shading result (foundation ColorSpace values used by
the surface shaders). -/
inductive ColorSpace where
  | LinearRGB
  | SRGB
  | CIEXYZ
  | Spectral
  deriving DecidableEq

/-- The shading result written by a surface shader: color space, a
three-component color and an alpha value. -/
structure ShadingResult where
  m_color_space : ColorSpace
  m_color : Fin 3 → ℚ
  m_alpha : ℚ

/-- The ambient-occlusion surface shader: its sample count and maximum
occlusion distance. -/
structure AOSurfaceShader where
  m_samples : Nat
  m_max_distance : ℚ

/-- AOSurfaceShader::evaluate: set the color space to linear RGB, set the
alpha channel to full opacity, and write the gray-scale accessibility
1 - occlusion into all three color components.  The parameter ao stands for
the external compute_ambient_occlusion primitive (closed over the sampling
context and the intersector), applied, as in the source, to the point, the
geometric normal, the shading basis, the maximum distance, the sample count
and finally the full shading point itself (the source passes the address of
shading_point, material reference included, as its last argument); whether
and how the primitive uses that last argument is decided by
renderer/kernel/shading/ambientocclusion.h, which is outside this slice. -/
def AOSurfaceShader.evaluate
    (ao : Vec3 → Vec3 → Basis3 → ℚ → Nat → ShadingPoint → ℚ)
    (sh : AOSurfaceShader) (sp : ShadingPoint) : ShadingResult :=
  let occlusion := ao sp.get_point sp.get_geometric_normal
    sp.get_shading_basis sh.m_max_distance sh.m_samples sp
  let accessibility := 1 - occlusion
  { m_color_space := ColorSpace.LinearRGB
    m_alpha := 1
    m_color := fun _ => accessibility }


/-! Concrete fixtures shared by witness and counterexample theorems. -/

/-- The unit vector along z, used as point, normal and outgoing direction in
concrete instances. -/
def upVec : Vec3 := { x := 0, y := 0, z := 1 }

/-- A concrete orthonormal shading frame. -/
def basisW : Basis3 :=
  { n := upVec, u := { x := 1, y := 0, z := 0 }, v := { x := 0, y := 1, z := 0 } }

/-- The spectrum with every band equal to one. -/
def onesSpectrum : Spectrum := fun _ => 1

/-- A concrete EDF emitting the unit spectrum in every direction. -/
def edfW : EDF := { evaluate := fun _ _ _ => onesSpectrum }

/-- A material carrying the concrete EDF. -/
def materialEmissive : Material := { get_edf := some edfW }

/-- A material with no EDF. -/
def materialPlain : Material := { get_edf := none }

/-- A concrete emissive shading point at unit travel distance. -/
def spEmissive : ShadingPoint :=
  { get_point := upVec, get_geometric_normal := upVec,
    get_shading_normal := upVec, get_shading_basis := basisW,
    get_distance := 1, get_material := materialEmissive }

/-- The same geometry as spEmissive with a non-emissive material. -/
def spPlain : ShadingPoint :=
  { get_point := upVec, get_geometric_normal := upVec,
    get_shading_normal := upVec, get_shading_basis := basisW,
    get_distance := 1, get_material := materialPlain }

/-- A light sampler that yields no candidate samples and evaluates every
light-sampling density to zero. -/
def samplerEmptyW : LightSampler :=
  { sample := fun _ _ _ => [], evaluate_pdf := fun _ => 0 }

/-- The engine parameters at their documented defaults. -/
def paramsW : Parameters :=
  { m_max_reflection_depth := 8, m_max_refraction_depth := 8,
    m_minimum_path_length := 3, m_dl_sample_count := 1,
    m_ibl_bsdf_sample_count := 2, m_ibl_env_sample_count := 2 }

/-- A direct-lighting estimator returning no contribution. -/
def zeroDL : ShadingPoint → Vec3 → List LightSample → Spectrum :=
  fun _ _ _ => Spectrum.zero

/-- An image-based-lighting estimator returning no contribution. -/
def zeroIBL : ShadingPoint → Vec3 → Nat → Nat → Spectrum :=
  fun _ _ _ _ => Spectrum.zero

/-- A concrete vertex visitor over the empty light sampler and the zero
estimators. -/
def visitorW : PathVertexVisitor :=
  { m_light_sampler := samplerEmptyW, m_params := paramsW,
    compute_direct_lighting := zeroDL, compute_image_based_lighting := zeroIBL }

/-- A freshly constructed concrete engine. -/
def engineW : DRTLightingEngine :=
  { m_light_sampler := samplerEmptyW, m_params := paramsW,
    m_stats := Statistics.init }

/-- A concrete AOV accumulator. -/
def accW : AOVAccumulator :=
  { m_index := 0, m_color := Spectrum.zero, m_alpha := 0 }

/-- A parameter set defining none of the options. -/
def paramsNone : ParamArray := fun _ => none

/-- A parameter set mapping every option name to 42. -/
def paramsAll42 : ParamArray := fun _ => some 42

/-! Claim theorems. -/

/-- C1: when the material has an EDF, a vertex reached by the Specular mode
receives the evaluated emitted radiance with full weight 1, independently of
the light sampler's probability density, while a vertex reached by any
non-specular mode receives it multiplied by the power-2 MIS weight. -/
theorem c1_specular_emission_unweighted :
    (∀ (v : PathVertexVisitor) (sp : ShadingPoint) (outgoing : Vec3)
      (bsdf_prob : ℚ) (edf : EDF), sp.get_material.get_edf = some edf →
      get_vertex_radiance v sp outgoing BSDFMode.Specular bsdf_prob =
        some (Spectrum.add (vertex_base_radiance v sp outgoing)
          (edf.evaluate sp.get_geometric_normal sp.get_shading_basis
            outgoing))) ∧
    (∀ (v : PathVertexVisitor) (sp : ShadingPoint) (outgoing : Vec3)
      (bsdf_mode : BSDFMode) (bsdf_prob : ℚ) (edf : EDF),
      sp.get_material.get_edf = some edf → bsdf_mode ≠ BSDFMode.Specular →
      get_vertex_radiance v sp outgoing bsdf_mode bsdf_prob =
        Option.map
          (fun w => Spectrum.add (vertex_base_radiance v sp outgoing)
            (Spectrum.scale w
              (edf.evaluate sp.get_geometric_normal sp.get_shading_basis
                outgoing)))
          (mis_power2F
            (bsdf_point_prob bsdf_prob outgoing sp.get_shading_normal
              sp.get_distance)
            (some (v.m_light_sampler.evaluate_pdf sp)))) := by
  constructor
  · intro v sp outgoing bsdf_prob edf hedf
    simp [get_vertex_radiance, hedf]
  · intro v sp outgoing bsdf_mode bsdf_prob edf hedf hmode
    simp [get_vertex_radiance, hedf, hmode]

/-- C1 witness: the two branches evaluated on the concrete emissive vertex,
reached by the Specular and the Diffuse mode respectively. -/
theorem c1_specular_emission_unweighted_witness :
    get_vertex_radiance visitorW spEmissive upVec BSDFMode.Specular 0 =
      some (Spectrum.add (vertex_base_radiance visitorW spEmissive upVec)
        (edfW.evaluate spEmissive.get_geometric_normal
          spEmissive.get_shading_basis upVec)) ∧
    get_vertex_radiance visitorW spEmissive upVec BSDFMode.Diffuse 0 =
      Option.map
        (fun w => Spectrum.add (vertex_base_radiance visitorW spEmissive upVec)
          (Spectrum.scale w
            (edfW.evaluate spEmissive.get_geometric_normal
              spEmissive.get_shading_basis upVec)))
        (mis_power2F
          (bsdf_point_prob 0 upVec spEmissive.get_shading_normal
            spEmissive.get_distance)
          (some (visitorW.m_light_sampler.evaluate_pdf spEmissive))) :=
  ⟨c1_specular_emission_unweighted.1 visitorW spEmissive upVec 0 edfW rfl,
    c1_specular_emission_unweighted.2 visitorW spEmissive upVec
      BSDFMode.Diffuse 0 edfW rfl (by decide)⟩

/-- C2: the power-2 MIS weight satisfies the balance identity
weight = p1 ^ 2 / (p1 ^ 2 + p2 ^ 2) for strictly positive densities, the
two weights obtained by swapping the strategies sum to 1, and the weight
equals 1 when p2 = 0 with p1 > 0. -/
theorem c2_mis_power2_balance :
    (∀ p1 p2 : ℚ, 0 < p1 → 0 < p2 →
      mis_power2 p1 p2 = p1 ^ 2 / (p1 ^ 2 + p2 ^ 2) ∧
      mis_power2 p1 p2 + mis_power2 p2 p1 = 1) ∧
    (∀ p1 : ℚ, 0 < p1 → mis_power2 p1 0 = 1) := by
  have hsq : ∀ x : ℚ, square x = x ^ 2 := fun x => by
    simp only [square]; ring
  constructor
  · intro p1 p2 h1 h2
    constructor
    · rw [mis_power2, hsq, hsq]
    · have hd : p1 ^ 2 + p2 ^ 2 ≠ 0 := by positivity
      have hd' : p2 ^ 2 + p1 ^ 2 ≠ 0 := by positivity
      rw [mis_power2, mis_power2, hsq p1, hsq p2]
      field_simp
      ring
  · intro p1 h1
    have h0 : square (0 : ℚ) = 0 := by simp [square]
    have hs : square p1 ≠ 0 := by
      simp only [square]
      exact mul_ne_zero (ne_of_gt h1) (ne_of_gt h1)
    rw [mis_power2, h0, add_zero, div_self hs]

/-- C2 witness: the balance identity evaluated at the densities 1 and 2,
and the degenerate case at 3 and 0. -/
theorem c2_mis_power2_balance_witness :
    (mis_power2 1 2 = 1 ^ 2 / (1 ^ 2 + 2 ^ 2) ∧
      mis_power2 1 2 + mis_power2 2 1 = 1) ∧
    mis_power2 3 0 = 1 :=
  ⟨c2_mis_power2_balance.1 1 2 (by norm_num) (by norm_num),
    c2_mis_power2_balance.2 3 (by norm_num)⟩

/-- C3: for an emissive vertex reached by a non-specular mode with nonzero
travel distance, the BSDF-sampling density used as the first MIS argument
equals the solid-angle density bsdf_prob multiplied by
max(cosine(outgoing, shading normal), 0) and divided by the squared travel
distance. -/
theorem c3_bsdf_density_area_measure
    (v : PathVertexVisitor) (sp : ShadingPoint) (outgoing : Vec3)
    (bsdf_mode : BSDFMode) (bsdf_prob : ℚ) (edf : EDF)
    (hedf : sp.get_material.get_edf = some edf)
    (hmode : bsdf_mode ≠ BSDFMode.Specular)
    (hdist : sp.get_distance ≠ 0) :
    bsdf_point_prob bsdf_prob outgoing sp.get_shading_normal sp.get_distance =
      some (bsdf_prob * max (dot outgoing sp.get_shading_normal) 0 /
        square sp.get_distance) ∧
    get_vertex_radiance v sp outgoing bsdf_mode bsdf_prob =
      Option.map
        (fun w => Spectrum.add (vertex_base_radiance v sp outgoing)
          (Spectrum.scale w
            (edf.evaluate sp.get_geometric_normal sp.get_shading_basis
              outgoing)))
        (mis_power2F
          (some (bsdf_prob * max (dot outgoing sp.get_shading_normal) 0 /
            square sp.get_distance))
          (some (v.m_light_sampler.evaluate_pdf sp))) := by
  have hsq : square sp.get_distance ≠ 0 := by
    simp only [square]
    exact mul_ne_zero hdist hdist
  have h1 : bsdf_point_prob bsdf_prob outgoing sp.get_shading_normal
      sp.get_distance =
      some (bsdf_prob * max (dot outgoing sp.get_shading_normal) 0 /
        square sp.get_distance) := by
    simp [bsdf_point_prob, divF, hsq]
  refine ⟨h1, ?_⟩
  simp [get_vertex_radiance, hedf, hmode, h1]

/-- C3 witness: the area-measure conversion evaluated on the concrete
emissive vertex at unit distance with bsdf_prob 1. -/
theorem c3_bsdf_density_area_measure_witness :
    bsdf_point_prob 1 upVec spEmissive.get_shading_normal
      spEmissive.get_distance =
      some (1 * max (dot upVec spEmissive.get_shading_normal) 0 /
        square spEmissive.get_distance) ∧
    get_vertex_radiance visitorW spEmissive upVec BSDFMode.Glossy 1 =
      Option.map
        (fun w => Spectrum.add (vertex_base_radiance visitorW spEmissive upVec)
          (Spectrum.scale w
            (edfW.evaluate spEmissive.get_geometric_normal
              spEmissive.get_shading_basis upVec)))
        (mis_power2F
          (some (1 * max (dot upVec spEmissive.get_shading_normal) 0 /
            square spEmissive.get_distance))
          (some (visitorW.m_light_sampler.evaluate_pdf spEmissive))) :=
  c3_bsdf_density_area_measure visitorW spEmissive upVec BSDFMode.Glossy 1
    edfW rfl (by decide) (by decide)

/-- C7: get_environment_radiance reports not available (false) for every
shading point and outgoing direction and leaves the output environment
radiance untouched, so the caller falls back to a zero contribution. -/
theorem c7_environment_radiance_unavailable :
    ∀ (sp : ShadingPoint) (outgoing : Vec3) (environment_radiance : Spectrum),
      get_environment_radiance sp outgoing environment_radiance =
        (false, environment_radiance) :=
  fun _ _ _ => rfl

/-- C9: constructing engine parameters from a parameter set takes the
documented defaults 8, 8, 3, 1, 2, 2 when the options max_reflection_depth,
max_refraction_depth, minimum_path_length, dl_samples, ibl_bsdf_samples and
ibl_env_samples are absent, takes the supplied value when present, and
depends on the value of no other option. -/
theorem c9_parameters_defaults :
    (∀ p : ParamArray, p "max_reflection_depth" = none →
      (Parameters.ofParamArray p).m_max_reflection_depth = 8) ∧
    (∀ (p : ParamArray) (v : Nat), p "max_reflection_depth" = some v →
      (Parameters.ofParamArray p).m_max_reflection_depth = v) ∧
    (∀ p : ParamArray, p "max_refraction_depth" = none →
      (Parameters.ofParamArray p).m_max_refraction_depth = 8) ∧
    (∀ (p : ParamArray) (v : Nat), p "max_refraction_depth" = some v →
      (Parameters.ofParamArray p).m_max_refraction_depth = v) ∧
    (∀ p : ParamArray, p "minimum_path_length" = none →
      (Parameters.ofParamArray p).m_minimum_path_length = 3) ∧
    (∀ (p : ParamArray) (v : Nat), p "minimum_path_length" = some v →
      (Parameters.ofParamArray p).m_minimum_path_length = v) ∧
    (∀ p : ParamArray, p "dl_samples" = none →
      (Parameters.ofParamArray p).m_dl_sample_count = 1) ∧
    (∀ (p : ParamArray) (v : Nat), p "dl_samples" = some v →
      (Parameters.ofParamArray p).m_dl_sample_count = v) ∧
    (∀ p : ParamArray, p "ibl_bsdf_samples" = none →
      (Parameters.ofParamArray p).m_ibl_bsdf_sample_count = 2) ∧
    (∀ (p : ParamArray) (v : Nat), p "ibl_bsdf_samples" = some v →
      (Parameters.ofParamArray p).m_ibl_bsdf_sample_count = v) ∧
    (∀ p : ParamArray, p "ibl_env_samples" = none →
      (Parameters.ofParamArray p).m_ibl_env_sample_count = 2) ∧
    (∀ (p : ParamArray) (v : Nat), p "ibl_env_samples" = some v →
      (Parameters.ofParamArray p).m_ibl_env_sample_count = v) ∧
    (∀ p q : ParamArray,
      p "max_reflection_depth" = q "max_reflection_depth" →
      p "max_refraction_depth" = q "max_refraction_depth" →
      p "minimum_path_length" = q "minimum_path_length" →
      p "dl_samples" = q "dl_samples" →
      p "ibl_bsdf_samples" = q "ibl_bsdf_samples" →
      p "ibl_env_samples" = q "ibl_env_samples" →
      Parameters.ofParamArray p = Parameters.ofParamArray q) := by
  refine ⟨?_, ?_, ?_, ?_, ?_, ?_, ?_, ?_, ?_, ?_, ?_, ?_, ?_⟩
  · intro p h; simp [Parameters.ofParamArray, get_optional, h]
  · intro p v h; simp [Parameters.ofParamArray, get_optional, h]
  · intro p h; simp [Parameters.ofParamArray, get_optional, h]
  · intro p v h; simp [Parameters.ofParamArray, get_optional, h]
  · intro p h; simp [Parameters.ofParamArray, get_optional, h]
  · intro p v h; simp [Parameters.ofParamArray, get_optional, h]
  · intro p h; simp [Parameters.ofParamArray, get_optional, h]
  · intro p v h; simp [Parameters.ofParamArray, get_optional, h]
  · intro p h; simp [Parameters.ofParamArray, get_optional, h]
  · intro p v h; simp [Parameters.ofParamArray, get_optional, h]
  · intro p h; simp [Parameters.ofParamArray, get_optional, h]
  · intro p v h; simp [Parameters.ofParamArray, get_optional, h]
  · intro p q h1 h2 h3 h4 h5 h6
    simp [Parameters.ofParamArray, get_optional, h1, h2, h3, h4, h5, h6]

/-- C9 witness: the six defaults on an empty parameter set, the six supplied
values on a parameter set mapping every option to 42, and option-agreement
on the empty set. -/
theorem c9_parameters_defaults_witness :
    (Parameters.ofParamArray paramsNone).m_max_reflection_depth = 8 ∧
    (Parameters.ofParamArray paramsAll42).m_max_reflection_depth = 42 ∧
    (Parameters.ofParamArray paramsNone).m_max_refraction_depth = 8 ∧
    (Parameters.ofParamArray paramsAll42).m_max_refraction_depth = 42 ∧
    (Parameters.ofParamArray paramsNone).m_minimum_path_length = 3 ∧
    (Parameters.ofParamArray paramsAll42).m_minimum_path_length = 42 ∧
    (Parameters.ofParamArray paramsNone).m_dl_sample_count = 1 ∧
    (Parameters.ofParamArray paramsAll42).m_dl_sample_count = 42 ∧
    (Parameters.ofParamArray paramsNone).m_ibl_bsdf_sample_count = 2 ∧
    (Parameters.ofParamArray paramsAll42).m_ibl_bsdf_sample_count = 42 ∧
    (Parameters.ofParamArray paramsNone).m_ibl_env_sample_count = 2 ∧
    (Parameters.ofParamArray paramsAll42).m_ibl_env_sample_count = 42 ∧
    Parameters.ofParamArray paramsNone = Parameters.ofParamArray paramsNone := by
  have h := c9_parameters_defaults
  exact ⟨h.1 paramsNone rfl, h.2.1 paramsAll42 42 rfl,
    h.2.2.1 paramsNone rfl, h.2.2.2.1 paramsAll42 42 rfl,
    h.2.2.2.2.1 paramsNone rfl, h.2.2.2.2.2.1 paramsAll42 42 rfl,
    h.2.2.2.2.2.2.1 paramsNone rfl, h.2.2.2.2.2.2.2.1 paramsAll42 42 rfl,
    h.2.2.2.2.2.2.2.2.1 paramsNone rfl,
    h.2.2.2.2.2.2.2.2.2.1 paramsAll42 42 rfl,
    h.2.2.2.2.2.2.2.2.2.2.1 paramsNone rfl,
    h.2.2.2.2.2.2.2.2.2.2.2.1 paramsAll42 42 rfl,
    h.2.2.2.2.2.2.2.2.2.2.2.2 paramsNone paramsNone rfl rfl rfl rfl rfl rfl⟩

/-- The power-2 MIS weight on finite densities is finite whenever the two
squared densities do not sum to zero. -/
theorem mis_power2F_some (q1 q2 : ℚ) (h : square q1 + square q2 ≠ 0) :
    mis_power2F (some q1) (some q2) = some (mis_power2 q1 q2) := by
  simp only [square] at h
  simp [mis_power2F, squareF, mulF, addF, divF, mis_power2, square, h]

/-- The power-2 MIS weight is non-negative. -/
theorem mis_power2_nonneg (q1 q2 : ℚ) : 0 ≤ mis_power2 q1 q2 := by
  unfold mis_power2 square
  exact div_nonneg (mul_self_nonneg q1)
    (add_nonneg (mul_self_nonneg q1) (mul_self_nonneg q2))

/-- Once the offset has reached the capacity, every success flag in a
range-indexed insertion is false. -/
theorem range_map_decide_false (n k : Nat) (h : MaxAOVCount ≤ k) :
    (List.range n).map (fun i => decide (k + i < MaxAOVCount)) =
      List.replicate n false := by
  refine List.eq_replicate_iff.mpr ⟨by simp, ?_⟩
  intro b hb
  simp only [List.mem_map, List.mem_range] at hb
  obtain ⟨i, _, rfl⟩ := hb
  simp only [decide_eq_false_iff_not]
  omega

/-- Full characterization of a sequence of inserts starting from an
arbitrary container: the i-th insert succeeds exactly when the container
then holds fewer than MaxAOVCount accumulators, and the registered
accumulators are the original ones followed by the prefix of the new ones
that fits. -/
theorem insertAll_spec (as : List AOVAccumulator) (c : AOVAccumulatorContainer) :
    (insertAll c as).1 =
      (List.range as.length).map
        (fun i => decide (c.m_accumulators.length + i < MaxAOVCount)) ∧
    (insertAll c as).2.m_accumulators =
      c.m_accumulators ++ as.take (MaxAOVCount - c.m_accumulators.length) := by
  induction as generalizing c with
  | nil => simp [insertAll]
  | cons a rest ih =>
    by_cases h : c.m_accumulators.length < MaxAOVCount
    · have hins : c.insert a =
          (true, { m_accumulators := c.m_accumulators ++ [a] }) := by
        simp [AOVAccumulatorContainer.insert, h]
      obtain ⟨ih1, ih2⟩ := ih { m_accumulators := c.m_accumulators ++ [a] }
      constructor
      · simp only [insertAll, hins, List.length_cons, List.range_succ_eq_map,
          List.map_cons, List.map_map]
        rw [ih1]
        congr 1
        · simp [h]
        · simp only [List.length_append, List.length_singleton]
          apply List.map_congr_left
          intro i _
          simp only [Function.comp_apply]
          rw [decide_eq_decide]
          omega
      · simp only [insertAll, hins]
        rw [ih2]
        simp only [List.length_append, List.length_singleton]
        have h1 : MaxAOVCount - c.m_accumulators.length =
            (MaxAOVCount - (c.m_accumulators.length + 1)) + 1 := by omega
        rw [h1, List.take_succ_cons, List.append_assoc, List.singleton_append]
    · have hins : c.insert a = (false, c) := by
        simp [AOVAccumulatorContainer.insert, h]
      have hk : MaxAOVCount ≤ c.m_accumulators.length := Nat.le_of_not_lt h
      obtain ⟨ih1, ih2⟩ := ih c
      have hz : MaxAOVCount - c.m_accumulators.length = 0 := by omega
      constructor
      · simp only [insertAll, hins, List.length_cons]
        rw [ih1, range_map_decide_false _ _ hk, range_map_decide_false _ _ hk,
          List.replicate_succ]
      · simp only [insertAll, hins]
        rw [ih2, hz]
        simp [hz]

/-- C8: starting from an empty container, the i-th insert succeeds exactly
when i is below MaxAOVCount, so the first MaxAOVCount inserts succeed and
every subsequent insert reports failure without modifying the registered
accumulators, and the container never holds more than MaxAOVCount
accumulators. -/
theorem c8_aov_container_capacity :
    (∀ as : List AOVAccumulator,
      (insertAll AOVAccumulatorContainer.empty as).1 =
        (List.range as.length).map (fun i => decide (i < MaxAOVCount)) ∧
      (insertAll AOVAccumulatorContainer.empty as).2.m_accumulators =
        as.take MaxAOVCount ∧
      (insertAll AOVAccumulatorContainer.empty as).2.m_accumulators.length ≤
        MaxAOVCount) ∧
    (∀ as : List AOVAccumulator, as.length ≤ MaxAOVCount →
      (insertAll AOVAccumulatorContainer.empty as).1 =
        List.replicate as.length true) ∧
    (∀ (c : AOVAccumulatorContainer) (a : AOVAccumulator),
      MaxAOVCount ≤ c.m_accumulators.length → c.insert a = (false, c)) := by
  have hempty : AOVAccumulatorContainer.empty.m_accumulators = ([] : List AOVAccumulator) := rfl
  refine ⟨?_, ?_, ?_⟩
  · intro as
    obtain ⟨h1, h2⟩ := insertAll_spec as AOVAccumulatorContainer.empty
    rw [hempty] at h1 h2
    simp only [List.length_nil, Nat.zero_add, List.nil_append, Nat.sub_zero] at h1 h2
    refine ⟨h1, h2, ?_⟩
    rw [h2, List.length_take]
    exact min_le_left _ _
  · intro as hlen
    obtain ⟨h1, _⟩ := insertAll_spec as AOVAccumulatorContainer.empty
    rw [hempty] at h1
    simp only [List.length_nil, Nat.zero_add] at h1
    rw [h1]
    refine List.eq_replicate_iff.mpr ⟨by simp, ?_⟩
    intro b hb
    simp only [List.mem_map, List.mem_range] at hb
    obtain ⟨i, hi, rfl⟩ := hb
    simp only [decide_eq_true_eq]
    omega
  · intro c a h
    simp [AOVAccumulatorContainer.insert, Nat.not_lt.mpr h]

/-- C8 witness: five inserts into an empty container all succeed, and an
insert into a container filled to capacity fails and leaves it unchanged. -/
theorem c8_aov_container_capacity_witness :
    (insertAll AOVAccumulatorContainer.empty (List.replicate 5 accW)).1 =
      List.replicate 5 true ∧
    AOVAccumulatorContainer.insert
      { m_accumulators := List.replicate MaxAOVCount accW } accW =
      (false, { m_accumulators := List.replicate MaxAOVCount accW }) :=
  ⟨c8_aov_container_capacity.2.1 (List.replicate 5 accW) (by decide),
    c8_aov_container_capacity.2.2
      { m_accumulators := List.replicate MaxAOVCount accW } accW (by decide)⟩

/-- C4 counterexample: the claim fails on the code.  At a concrete emissive
vertex reached by the Diffuse mode with a zero-probability BSDF sample
(bsdf_prob = 0) and a zero light-sampling density, the MIS weight is the
unguarded division 0/0 (an IEEE NaN), which multiplies into the emitted
radiance and propagates into the radiance compute_lighting returns: the
result is non-finite rather than a finite non-negative spectrum. -/
theorem c4_counterexample_nan_propagates :
    (compute_lighting engineW zeroDL zeroIBL
      [{ shading_point := spEmissive, outgoing := upVec,
         bsdf_mode := BSDFMode.Diffuse, bsdf_prob := 0 }] none).1 = none := by
  have hpx : bsdf_point_prob 0 upVec upVec 1 = some 0 := by
    norm_num [bsdf_point_prob, divF, square]
  have hmis : mis_power2F (some 0) (some (0 : ℚ)) = none := by
    norm_num [mis_power2F, squareF, mulF, addF, divF]
  have hvert : get_vertex_radiance visitorW spEmissive upVec
      BSDFMode.Diffuse 0 = none := by
    simp [get_vertex_radiance, visitorW, samplerEmptyW, spEmissive,
      materialEmissive, hpx, hmis]
  show (trace visitorW
      [{ shading_point := spEmissive, outgoing := upVec,
         bsdf_mode := BSDFMode.Diffuse, bsdf_prob := 0 }] none).1 = none
  simp [trace, hvert, addOpt]

/-- C4 amended: the vertex radiance is finite and non-negative provided the
travel distance is nonzero, the BSDF area density and the light-sampling
density are not both zero (the guards the claim wrongly asserts the code to
contain), bsdf_prob is non-negative and the external contributions are
non-negative. -/
theorem c4_amended_vertex_radiance_finite_nonneg
    (v : PathVertexVisitor) (sp : ShadingPoint) (outgoing : Vec3)
    (bsdf_mode : BSDFMode) (bsdf_prob : ℚ)
    (hdist : sp.get_distance ≠ 0)
    (hnz : bsdf_prob * max (dot outgoing sp.get_shading_normal) 0 ≠ 0 ∨
      v.m_light_sampler.evaluate_pdf sp ≠ 0)
    (hprob : 0 ≤ bsdf_prob)
    (hbase : ∀ i, 0 ≤ vertex_base_radiance v sp outgoing i)
    (hemit : ∀ edf, sp.get_material.get_edf = some edf →
      ∀ i, 0 ≤ edf.evaluate sp.get_geometric_normal sp.get_shading_basis
        outgoing i) :
    ∃ r : Spectrum,
      get_vertex_radiance v sp outgoing bsdf_mode bsdf_prob = some r ∧
      ∀ i, 0 ≤ r i := by
  rcases hedf : sp.get_material.get_edf with _ | edf
  · exact ⟨vertex_base_radiance v sp outgoing,
      by simp [get_vertex_radiance, hedf], hbase⟩
  · by_cases hmode : bsdf_mode = BSDFMode.Specular
    · refine ⟨Spectrum.add (vertex_base_radiance v sp outgoing)
        (edf.evaluate sp.get_geometric_normal sp.get_shading_basis outgoing),
        by simp [get_vertex_radiance, hedf, hmode], fun i => ?_⟩
      exact add_nonneg (hbase i) (hemit edf hedf i)
    · have hsqd : square sp.get_distance ≠ 0 := by
        simp only [square]
        exact mul_ne_zero hdist hdist
      have hpx : bsdf_point_prob bsdf_prob outgoing sp.get_shading_normal
          sp.get_distance =
          some (bsdf_prob * max (dot outgoing sp.get_shading_normal) 0 /
            square sp.get_distance) := by
        simp [bsdf_point_prob, divF, hsqd]
      have hps : square (bsdf_prob * max (dot outgoing sp.get_shading_normal) 0 /
            square sp.get_distance) +
          square (v.m_light_sampler.evaluate_pdf sp) ≠ 0 := by
        simp only [square]
        rcases hnz with h | h
        · have hpx0 : bsdf_prob * max (dot outgoing sp.get_shading_normal) 0 /
              (sp.get_distance * sp.get_distance) ≠ 0 := by
            apply div_ne_zero h
            exact mul_ne_zero hdist hdist
          have h1 := mul_self_pos.mpr hpx0
          have h2 := mul_self_nonneg (v.m_light_sampler.evaluate_pdf sp)
          intro hc
          linarith
        · have h1 := mul_self_pos.mpr h
          have h2 := mul_self_nonneg
            (bsdf_prob * max (dot outgoing sp.get_shading_normal) 0 /
              (sp.get_distance * sp.get_distance))
          intro hc
          linarith
      have hw := mis_power2F_some
        (bsdf_prob * max (dot outgoing sp.get_shading_normal) 0 /
          square sp.get_distance)
        (v.m_light_sampler.evaluate_pdf sp) hps
      refine ⟨Spectrum.add (vertex_base_radiance v sp outgoing)
        (Spectrum.scale
          (mis_power2
            (bsdf_prob * max (dot outgoing sp.get_shading_normal) 0 /
              square sp.get_distance)
            (v.m_light_sampler.evaluate_pdf sp))
          (edf.evaluate sp.get_geometric_normal sp.get_shading_basis outgoing)),
        ?_, fun i => ?_⟩
      · simp [get_vertex_radiance, hedf, hmode, hpx, hw]
      · exact add_nonneg (hbase i)
          (mul_nonneg (mis_power2_nonneg _ _) (hemit edf hedf i))

/-- C4 witness for the amended statement: a concrete emissive Glossy vertex
at unit distance with bsdf_prob 1 yields a finite non-negative vertex
radiance. -/
theorem c4_amended_vertex_radiance_finite_nonneg_witness :
    ∃ r : Spectrum,
      get_vertex_radiance visitorW spEmissive upVec BSDFMode.Glossy 1 =
        some r ∧ ∀ i, 0 ≤ r i :=
  c4_amended_vertex_radiance_finite_nonneg visitorW spEmissive upVec
    BSDFMode.Glossy 1 (by norm_num [spEmissive])
    (Or.inl (by norm_num [dot, upVec, spEmissive]))
    (by norm_num)
    (by
      intro i
      norm_num [vertex_base_radiance, visitorW, samplerEmptyW, zeroDL,
        zeroIBL, Spectrum.add, Spectrum.zero])
    (fun e he => by
      have h : edfW = e := Option.some.inj he
      subst h
      intro i
      norm_num [edfW, onesSpectrum])

/-- Adding the zero spectrum to the zero spectrum yields the zero
spectrum. -/
theorem Spectrum.add_zero_zero :
    Spectrum.add Spectrum.zero Spectrum.zero = Spectrum.zero := by
  funext i
  simp [Spectrum.add, Spectrum.zero]

/-- Folding addOpt over contributions that are all the zero spectrum keeps
the accumulated radiance at the zero spectrum. -/
theorem foldl_addOpt_zero (f : PathVertex → Option Spectrum)
    (l : List PathVertex) (h : ∀ pv ∈ l, f pv = some Spectrum.zero) :
    l.foldl (fun acc pv => addOpt acc (f pv)) (some Spectrum.zero) =
      some Spectrum.zero := by
  induction l with
  | nil => rfl
  | cons pv rest ih =>
    have h1 : f pv = some Spectrum.zero := h pv (List.mem_cons_self _ _)
    have h2 : addOpt (some Spectrum.zero) (f pv) = some Spectrum.zero := by
      rw [h1]
      simp [addOpt, Spectrum.add_zero_zero]
    simp only [List.foldl_cons, h2]
    exact ih (fun pv hpv => h pv (List.mem_cons_of_mem _ hpv))

/-- C5: when the light sampler yields no candidate samples anywhere, the
direct-lighting estimator degrades to no contribution on an empty sample
set, the environment contributes nothing through IBL, and no traced vertex
has an emissive material, compute_lighting returns the zero Spectrum (a
zero-initialized radiance, not an error). -/
theorem c5_no_light_no_emission_zero_radiance (engine : DRTLightingEngine)
    (DL : ShadingPoint → Vec3 → List LightSample → Spectrum)
    (IBL : ShadingPoint → Vec3 → Nat → Nat → Spectrum)
    (vertices : List PathVertex) (escape : Option (ShadingPoint × Vec3))
    (hsampler : ∀ (p n : Vec3) (c : Nat),
      engine.m_light_sampler.sample p n c = [])
    (hDL : ∀ (sp : ShadingPoint) (outgoing : Vec3),
      DL sp outgoing [] = Spectrum.zero)
    (hIBL : ∀ (sp : ShadingPoint) (outgoing : Vec3) (a b : Nat),
      IBL sp outgoing a b = Spectrum.zero)
    (hedf : ∀ pv ∈ vertices,
      pv.shading_point.get_material.get_edf = none) :
    (compute_lighting engine DL IBL vertices escape).1 =
      some Spectrum.zero := by
  have hvert : ∀ pv ∈ vertices,
      get_vertex_radiance
        { m_light_sampler := engine.m_light_sampler,
          m_params := engine.m_params,
          compute_direct_lighting := DL,
          compute_image_based_lighting := IBL }
        pv.shading_point pv.outgoing pv.bsdf_mode pv.bsdf_prob =
        some Spectrum.zero := by
    intro pv hpv
    have hbase : vertex_base_radiance
        { m_light_sampler := engine.m_light_sampler,
          m_params := engine.m_params,
          compute_direct_lighting := DL,
          compute_image_based_lighting := IBL }
        pv.shading_point pv.outgoing = Spectrum.zero := by
      simp [vertex_base_radiance, hsampler, hDL, hIBL, Spectrum.add_zero_zero]
    simp [get_vertex_radiance, hedf pv hpv, hbase]
  have htrace : (trace
      { m_light_sampler := engine.m_light_sampler,
        m_params := engine.m_params,
        compute_direct_lighting := DL,
        compute_image_based_lighting := IBL } vertices escape).1 =
      some Spectrum.zero := by
    rcases escape with _ | esc
    · simpa [trace] using
        foldl_addOpt_zero
          (fun pv =>
            get_vertex_radiance
              { m_light_sampler := engine.m_light_sampler,
                m_params := engine.m_params,
                compute_direct_lighting := DL,
                compute_image_based_lighting := IBL }
              pv.shading_point pv.outgoing pv.bsdf_mode pv.bsdf_prob)
          vertices hvert
    · simpa [trace, get_environment_radiance] using
        foldl_addOpt_zero
          (fun pv =>
            get_vertex_radiance
              { m_light_sampler := engine.m_light_sampler,
                m_params := engine.m_params,
                compute_direct_lighting := DL,
                compute_image_based_lighting := IBL }
              pv.shading_point pv.outgoing pv.bsdf_mode pv.bsdf_prob)
          vertices hvert
  simpa [compute_lighting] using htrace

/-- A concrete non-emissive traced vertex. -/
def pvPlain : PathVertex :=
  { shading_point := spPlain, outgoing := upVec,
    bsdf_mode := BSDFMode.Diffuse, bsdf_prob := 1 }

/-- C5 witness: the concrete engine over the empty light sampler and the
zero estimators returns the zero spectrum on a one-vertex path that then
escapes the scene. -/
theorem c5_no_light_no_emission_zero_radiance_witness :
    (compute_lighting engineW zeroDL zeroIBL [pvPlain]
      (some (spPlain, upVec))).1 = some Spectrum.zero :=
  c5_no_light_no_emission_zero_radiance engineW zeroDL zeroIBL [pvPlain]
    (some (spPlain, upVec))
    (fun _ _ _ => rfl) (fun _ _ => rfl) (fun _ _ _ _ => rfl)
    (by
      intro pv hpv
      rw [List.mem_singleton] at hpv
      subst hpv
      rfl)

/-- The fold of min over a list is bounded by its seed and by every list
element. -/
theorem foldl_min_le (l : List Nat) (a : Nat) :
    l.foldl min a ≤ a ∧ ∀ x ∈ l, l.foldl min a ≤ x := by
  induction l generalizing a with
  | nil => exact ⟨Nat.le_refl a, fun x hx => absurd hx (List.not_mem_nil x)⟩
  | cons y rest ih =>
    obtain ⟨h1, h2⟩ := ih (min a y)
    refine ⟨le_trans h1 (min_le_left a y), ?_⟩
    intro x hx
    rcases List.mem_cons.mp hx with rfl | hx2
    · exact le_trans h1 (min_le_right a x)
    · exact h2 x hx2

/-- The fold of min over a list is the seed or one of the elements. -/
theorem foldl_min_mem (l : List Nat) (a : Nat) :
    l.foldl min a = a ∨ l.foldl min a ∈ l := by
  induction l generalizing a with
  | nil => exact Or.inl rfl
  | cons y rest ih =>
    rcases ih (min a y) with h | h
    · rcases min_choice a y with h2 | h2
      · exact Or.inl (by rw [List.foldl_cons, h, h2])
      · refine Or.inr ?_
        rw [List.foldl_cons, h, h2]
        exact List.mem_cons_self y rest
    · refine Or.inr (List.mem_cons_of_mem y ?_)
      rwa [List.foldl_cons]

/-- The fold of max over a list dominates its seed and every list
element. -/
theorem foldl_max_le (l : List Nat) (a : Nat) :
    a ≤ l.foldl max a ∧ ∀ x ∈ l, x ≤ l.foldl max a := by
  induction l generalizing a with
  | nil => exact ⟨Nat.le_refl a, fun x hx => absurd hx (List.not_mem_nil x)⟩
  | cons y rest ih =>
    obtain ⟨h1, h2⟩ := ih (max a y)
    refine ⟨le_trans (le_max_left a y) h1, ?_⟩
    intro x hx
    rcases List.mem_cons.mp hx with rfl | hx2
    · exact le_trans (le_max_right a x) h1
    · exact h2 x hx2

/-- The fold of max over a list is the seed or one of the elements. -/
theorem foldl_max_mem (l : List Nat) (a : Nat) :
    l.foldl max a = a ∨ l.foldl max a ∈ l := by
  induction l generalizing a with
  | nil => exact Or.inl rfl
  | cons y rest ih =>
    rcases ih (max a y) with h | h
    · rcases max_choice a y with h2 | h2
      · exact Or.inl (by rw [List.foldl_cons, h, h2])
      · refine Or.inr ?_
        rw [List.foldl_cons, h, h2]
        exact List.mem_cons_self y rest
    · refine Or.inr (List.mem_cons_of_mem y ?_)
      rwa [List.foldl_cons]

/-- Folding insert over a population of nonzero size tracks the count, the
extrema as min/max folds, and the streaming mean as the running sum. -/
theorem pop_foldl_spec (l : List Nat) (p : Population) (hp : p.m_size ≠ 0) :
    (l.foldl Population.insert p).m_size = p.m_size + l.length ∧
    (l.foldl Population.insert p).m_min = l.foldl min p.m_min ∧
    (l.foldl Population.insert p).m_max = l.foldl max p.m_max ∧
    (l.foldl Population.insert p).m_avg * ((p.m_size + l.length : Nat) : ℚ) =
      p.m_avg * (p.m_size : ℚ) + (l.map (fun n : Nat => (n : ℚ))).sum := by
  induction l generalizing p with
  | nil =>
    refine ⟨rfl, rfl, rfl, ?_⟩
    simp
  | cons x rest ih =>
    have hstep : Population.insert p x =
        { m_size := p.m_size + 1, m_min := min p.m_min x,
          m_max := max p.m_max x,
          m_avg := p.m_avg + ((x : ℚ) - p.m_avg) / ((p.m_size : ℚ) + 1) } := by
      simp [Population.insert, hp]
    have hq : (Population.insert p x).m_size ≠ 0 := by
      rw [hstep]
      exact Nat.succ_ne_zero _
    obtain ⟨ih1, ih2, ih3, ih4⟩ := ih (Population.insert p x) hq
    have hsz : (Population.insert p x).m_size = p.m_size + 1 := by rw [hstep]
    have havg : (Population.insert p x).m_avg =
        p.m_avg + ((x : ℚ) - p.m_avg) / ((p.m_size : ℚ) + 1) := by rw [hstep]
    have hmn : (Population.insert p x).m_min = min p.m_min x := by rw [hstep]
    have hmx : (Population.insert p x).m_max = max p.m_max x := by rw [hstep]
    refine ⟨?_, ?_, ?_, ?_⟩
    · simp only [List.foldl_cons, List.length_cons]
      rw [ih1, hsz]
      omega
    · simp only [List.foldl_cons]
      rw [ih2, hmn]
    · simp only [List.foldl_cons]
      rw [ih3, hmx]
    · simp only [List.foldl_cons]
      have hs1 : ((p.m_size : ℚ) + 1) ≠ 0 := by positivity
      have key : (p.m_avg + ((x : ℚ) - p.m_avg) / ((p.m_size : ℚ) + 1)) *
          ((p.m_size : ℚ) + 1) = p.m_avg * (p.m_size : ℚ) + (x : ℚ) := by
        field_simp
        ring
      rw [hsz, havg] at ih4
      push_cast at ih4
      rw [key] at ih4
      simp only [List.map_cons, List.sum_cons, List.length_cons]
      push_cast
      linear_combination ih4

/-- Running the engine over a list of paths adds the number of paths to the
path count and folds the path lengths into the ray-tree-depth
distribution. -/
theorem runPaths_stats
    (DL : ShadingPoint → Vec3 → List LightSample → Spectrum)
    (IBL : ShadingPoint → Vec3 → Nat → Nat → Spectrum)
    (inputs : List PathInput) (e : DRTLightingEngine) :
    (runPaths e DL IBL inputs).m_stats.m_path_count =
      e.m_stats.m_path_count + inputs.length ∧
    (runPaths e DL IBL inputs).m_stats.m_ray_tree_depth =
      (inputs.map (fun inp => inp.1.length)).foldl Population.insert
        e.m_stats.m_ray_tree_depth := by
  induction inputs generalizing e with
  | nil => exact ⟨rfl, rfl⟩
  | cons inp rest ih =>
    obtain ⟨ih1, ih2⟩ := ih ((compute_lighting e DL IBL inp.1 inp.2).2)
    have hstep : runPaths e DL IBL (inp :: rest) =
        runPaths ((compute_lighting e DL IBL inp.1 inp.2).2) DL IBL rest := rfl
    have hc : (compute_lighting e DL IBL inp.1 inp.2).2.m_stats.m_path_count =
        e.m_stats.m_path_count + 1 := rfl
    have hd : (compute_lighting e DL IBL
        inp.1 inp.2).2.m_stats.m_ray_tree_depth =
        e.m_stats.m_ray_tree_depth.insert inp.1.length := rfl
    constructor
    · rw [hstep, ih1, hc, List.length_cons]
      omega
    · rw [hstep, ih2, hd, List.map_cons, List.foldl_cons]

/-- DRTLightingEngineFactory::create: a freshly constructed engine bound to
a light sampler and a parameter set, with its own zeroed statistics. -/
def DRTLightingEngineFactory.create (ls : LightSampler)
    (params : Parameters) : DRTLightingEngine :=
  { m_light_sampler := ls, m_params := params, m_stats := Statistics.init }

/-- C6: every call to compute_lighting increments the engine's path count by
exactly one and inserts the traced path's length into the ray-tree-depth
distribution; on a freshly constructed engine, after tracing a nonempty
list of paths the path count equals the number of paths, get_avg equals the
arithmetic mean of the traced depths (exactly, in rational arithmetic), and
get_min and get_max are the true extrema of the depths. -/
theorem c6_path_statistics
    (DL : ShadingPoint → Vec3 → List LightSample → Spectrum)
    (IBL : ShadingPoint → Vec3 → Nat → Nat → Spectrum)
    (e : DRTLightingEngine) (vertices : List PathVertex)
    (escape : Option (ShadingPoint × Vec3))
    (ls : LightSampler) (params : Parameters)
    (inputs : List PathInput) (hne : inputs ≠ []) :
    (compute_lighting e DL IBL vertices escape).2.m_stats.m_path_count =
      e.m_stats.m_path_count + 1 ∧
    (compute_lighting e DL IBL vertices escape).2.m_stats.m_ray_tree_depth =
      e.m_stats.m_ray_tree_depth.insert vertices.length ∧
    (runPaths (DRTLightingEngineFactory.create ls params) DL IBL
      inputs).m_stats.m_path_count = inputs.length ∧
    (runPaths (DRTLightingEngineFactory.create ls params) DL IBL
      inputs).m_stats.m_ray_tree_depth.get_avg =
      ((inputs.map fun inp => inp.1.length).map (fun n : Nat => (n : ℚ))).sum /
        ((inputs.length : Nat) : ℚ) ∧
    ((runPaths (DRTLightingEngineFactory.create ls params) DL IBL
      inputs).m_stats.m_ray_tree_depth.get_min ∈
      inputs.map fun inp => inp.1.length) ∧
    (∀ d ∈ inputs.map fun inp => inp.1.length,
      (runPaths (DRTLightingEngineFactory.create ls params) DL IBL
        inputs).m_stats.m_ray_tree_depth.get_min ≤ d) ∧
    ((runPaths (DRTLightingEngineFactory.create ls params) DL IBL
      inputs).m_stats.m_ray_tree_depth.get_max ∈
      inputs.map fun inp => inp.1.length) ∧
    (∀ d ∈ inputs.map fun inp => inp.1.length,
      d ≤ (runPaths (DRTLightingEngineFactory.create ls params) DL IBL
        inputs).m_stats.m_ray_tree_depth.get_max) := by
  obtain ⟨inp0, rest, rfl⟩ := List.exists_cons_of_ne_nil hne
  obtain ⟨hr1, hr2⟩ := runPaths_stats DL IBL (inp0 :: rest)
    (DRTLightingEngineFactory.create ls params)
  have hE1 : (DRTLightingEngineFactory.create ls
      params).m_stats.m_path_count = 0 := rfl
  have hE2 : (DRTLightingEngineFactory.create ls
      params).m_stats.m_ray_tree_depth = Population.empty := rfl
  have hfirst : Population.empty.insert inp0.1.length =
      { m_size := 1, m_min := inp0.1.length, m_max := inp0.1.length,
        m_avg := (inp0.1.length : ℚ) } := by
    simp [Population.empty, Population.insert]
  rw [hE2, List.map_cons, List.foldl_cons, hfirst] at hr2
  obtain ⟨hs, hmin, hmax, havg⟩ :=
    pop_foldl_spec (rest.map fun inp => inp.1.length)
      { m_size := 1, m_min := inp0.1.length, m_max := inp0.1.length,
        m_avg := (inp0.1.length : ℚ) } (by simp)
  refine ⟨rfl, rfl, ?_, ?_, ?_, ?_, ?_, ?_⟩
  · rw [hr1, hE1, List.length_cons]
    omega
  · simp only [Population.get_avg]
    rw [hr2]
    have hNe : (((inp0 :: rest).length : Nat) : ℚ) ≠ 0 := by
      simp only [List.length_cons]
      push_cast
      positivity
    rw [eq_div_iff hNe]
    dsimp only at havg
    simp only [List.length_map] at havg
    simp only [List.map_cons, List.sum_cons, List.length_cons]
    push_cast at havg ⊢
    linear_combination havg
  · simp only [Population.get_min]
    rw [hr2, hmin]
    dsimp only
    simp only [List.map_cons]
    rcases foldl_min_mem (rest.map fun inp => inp.1.length) inp0.1.length
      with h | h
    · rw [h]
      exact List.mem_cons_self _ _
    · exact List.mem_cons_of_mem _ h
  · intro d hd
    simp only [Population.get_min]
    rw [hr2, hmin]
    dsimp only
    simp only [List.map_cons, List.mem_cons] at hd
    rcases hd with rfl | hd2
    · exact (foldl_min_le (rest.map fun inp => inp.1.length) inp0.1.length).1
    · exact (foldl_min_le (rest.map fun inp => inp.1.length)
        inp0.1.length).2 d hd2
  · simp only [Population.get_max]
    rw [hr2, hmax]
    dsimp only
    simp only [List.map_cons]
    rcases foldl_max_mem (rest.map fun inp => inp.1.length) inp0.1.length
      with h | h
    · rw [h]
      exact List.mem_cons_self _ _
    · exact List.mem_cons_of_mem _ h
  · intro d hd
    simp only [Population.get_max]
    rw [hr2, hmax]
    dsimp only
    simp only [List.map_cons, List.mem_cons] at hd
    rcases hd with rfl | hd2
    · exact (foldl_max_le (rest.map fun inp => inp.1.length) inp0.1.length).1
    · exact (foldl_max_le (rest.map fun inp => inp.1.length)
        inp0.1.length).2 d hd2

/-- Two concrete traced paths of depths 1 and 0. -/
def inputsW : List PathInput := [([pvPlain], none), ([], none)]

/-- C6 witness: the statistics contract evaluated on the concrete engine,
one concrete call and the two concrete paths of depths 1 and 0. -/
theorem c6_path_statistics_witness :
    (compute_lighting engineW zeroDL zeroIBL [pvPlain]
        none).2.m_stats.m_path_count =
      engineW.m_stats.m_path_count + 1 ∧
    (compute_lighting engineW zeroDL zeroIBL [pvPlain]
        none).2.m_stats.m_ray_tree_depth =
      engineW.m_stats.m_ray_tree_depth.insert
        ([pvPlain] : List PathVertex).length ∧
    (runPaths (DRTLightingEngineFactory.create samplerEmptyW paramsW)
      zeroDL zeroIBL inputsW).m_stats.m_path_count = inputsW.length ∧
    (runPaths (DRTLightingEngineFactory.create samplerEmptyW paramsW)
      zeroDL zeroIBL inputsW).m_stats.m_ray_tree_depth.get_avg =
      ((inputsW.map fun inp => inp.1.length).map
        (fun n : Nat => (n : ℚ))).sum / ((inputsW.length : Nat) : ℚ) ∧
    ((runPaths (DRTLightingEngineFactory.create samplerEmptyW paramsW)
      zeroDL zeroIBL inputsW).m_stats.m_ray_tree_depth.get_min ∈
      inputsW.map fun inp => inp.1.length) ∧
    (∀ d ∈ inputsW.map fun inp => inp.1.length,
      (runPaths (DRTLightingEngineFactory.create samplerEmptyW paramsW)
        zeroDL zeroIBL inputsW).m_stats.m_ray_tree_depth.get_min ≤ d) ∧
    ((runPaths (DRTLightingEngineFactory.create samplerEmptyW paramsW)
      zeroDL zeroIBL inputsW).m_stats.m_ray_tree_depth.get_max ∈
      inputsW.map fun inp => inp.1.length) ∧
    (∀ d ∈ inputsW.map fun inp => inp.1.length,
      d ≤ (runPaths (DRTLightingEngineFactory.create samplerEmptyW paramsW)
        zeroDL zeroIBL inputsW).m_stats.m_ray_tree_depth.get_max) :=
  c6_path_statistics zeroDL zeroIBL engineW [pvPlain] none samplerEmptyW
    paramsW inputsW (by simp [inputsW])

end Appleseed
